import Mathlib

/-!
Shallow embedding of the site production and impact aggregation model of
`src/model.py` (battery-cell manufacturing planning calculator).

Python floats are modelled as exact rationals (`ℚ`): the Python code performs
plain arithmetic with no explicit rounding step, so its real-number semantics
is the rational one.  The single float operation with no rational counterpart,
`x ** b` for a non-integer exponent `b` inside the energy-mix lambdas, is
abstracted as an explicit function parameter `pw : ℚ → ℚ → ℚ` threaded to the
model; no claim depends on its value.

Python `dict`s are modelled as insertion-ordered association lists
(`List (key × value)`, first match wins on lookup, updates modify the first
matching entry in place and append otherwise), which matches Python dict
semantics for the operations the code performs.  A Python `KeyError` (a failed
`d[k]` subscript) is modelled by `Option`: `none` is an uncaught exception
escaping the function.
-/

/-- First-match association-list lookup: the model of a Python `d.get(k)` /
`k in d` / `d[k]` on an insertion-ordered dict. -/
def alookup {α β : Type} [DecidableEq α] : List (α × β) → α → Option β
  | [], _ => none
  | (k, v) :: rest, a => if k = a then some v else alookup rest a

/-- Model of `site_materials[key] = site_materials.get(key, 0) + q` on an
insertion-ordered dict: add to the first matching entry, else append. -/
def addMat : List (String × ℚ) → String → ℚ → List (String × ℚ)
  | [], k, q => [(k, q)]
  | (k0, v) :: rest, k, q =>
      if k0 = k then (k0, v + q) :: rest else (k0, v) :: addMat rest k q

/-- Left fold where the step can fail: the model of a Python `for` loop whose
body may raise an uncaught exception. -/
def foldOption {α β : Type} (f : α → β → Option α) : α → List β → Option α
  | a, [] => some a
  | a, b :: bs =>
      match f a b with
      | none => none
      | some a2 => foldOption f a2 bs

-- -------------------------
-- CONFIG  (model.py lines 105-119)
-- -------------------------

def GBP_PER_INR : ℚ := 1 / 105

def UK_PRICE_PER_KWH : ℚ := 0.258

def INDIA_PRICE_PER_KWH : ℚ := 7.38 * GBP_PER_INR

/-- Embedding of `ENERGY_MIXES` (model.py lines 112-116): each entry is
`name ↦ fun x => a * x ** b if x > 0 else 0`, recorded as `(name, a, b)`. -/
def ENERGY_MIXES : List (String × ℚ × ℚ) :=
  [("100% Grid", 2777.40274, 0.288551),
   ("PPA:Grid (70:30)", 784.3886, 0.396496),
   ("Grid+Gas (30% demand)", 1460.00464, 0.534148)]

/-- The body of one `ENERGY_MIXES` lambda: `a * x ** b if x > 0 else 0`,
with the float power abstracted as `pw`. -/
def applyEnergyMix (pw : ℚ → ℚ → ℚ) (a b x : ℚ) : ℚ :=
  if x > 0 then a * pw x b else 0

/-- Embedding of `calculate_costs` (model.py lines 424-428). -/
def calculate_costs (uk_energy_gwh india_energy_gwh : ℚ) : ℚ :=
  uk_energy_gwh * 1000000 * UK_PRICE_PER_KWH
    + india_energy_gwh * 1000000 * INDIA_PRICE_PER_KWH

-- -------------------------
-- MATERIAL SOURCING OPTIONS  (model.py lines 124-175)
-- Each source entry `name ↦ {"co2": c, "water": w}` is recorded as
-- `(name, c, w)`.
-- -------------------------

def MATERIAL_SOURCES : List (String × List (String × ℚ × ℚ)) :=
  [("pCam Nickel",
    [("Nickel sulfate hexahydrate produced via carbonyl in Canada from nickel sulfate ore from Canada", 3.81, 9.22),
     ("Nickel sulfate hexahydrate produced via heap leaching in Finland from MSP from Finland", 4.73, 5.46),
     ("Nickel sulfate hexahydrate produced via HPAL in Brazil from MSP from Brazil", 9.06, 2.31),
     ("Nickel sulfate hexahydrate produced via HPAL in China from Nickel laterite ore from Australia", 10.81, 10.39),
     ("Nickel sulfate hexahydrate produced via ammonia refining in Australia from sulfide ore from Australia", 12.92, 3.44),
     ("Nickel sulfate hexahydrate from global average", 13.25, 0),
     ("Nickel sulfate hexahydrate produced via electrorefining in China from nickel sulfide ore from China", 13.60, -1.44),
     ("Nickel sulfate produced via pyrometallurgy in Canada from nickel sulfide ore from Canada", 18.32, 19.53),
     ("Nickel sulfate hexahydrate produced via HPAL in China from MHP from New Caledonia", 20.82, 4.86),
     ("Nickel sulfate hexahydrate produced via RKEF in Indonesia (hydro electricity) from nickel laterite ore from Indonesia", 40.04, 30.33),
     ("Nickel sulfate hexahydrate produced via HPAL in China from nickel laterite ore from Madagascar", 41.00, 0.58),
     ("Nickel sulfate produced via HPAL in Brazil from nickel laterite ore from Brazil", 41.20, 10.50),
     ("Nickel sulfate produced via pyrometallurgy in China from nickel sulfide ore from China", 61.82, -6.55)]),
   ("Synthetic Graphite",
    [("Anode-grade synthetic graphite in Sichuan, China from petroleum coke (powder)", 5.74, 0.61),
     ("Anode-grade synthetic graphite in US - SERC from Petroleum Coke (powder)", 8.76, 1.45),
     ("Anode-grade synthetic graphite in Sichuan (Calcination) and Taiwan (Graphitisation) from petroleum coke (powder)", 12.05, 1.23),
     ("Synthetic Graphite - Freyr Custom Route", 12.90, 0),
     ("Anode-grade synthetic graphite in Inner Mongolia (Calcination) and Taiwan (Graphitisation) from petroleum coke (powder)", 13.83, 2.03),
     ("Anode-grade synthetic graphite from global average", 15.28, 3.41)]),
   ("pCam Manganese",
    [("Manganese sulfate monohydrate from global average (EF3.0)", 0.32, 0.07),
     ("HPMSM produced via direct ore processing in Gabon with manganese ore from Gabon", 0.90, 0.80),
     ("HPMSM produced via direct ore processing (calcination not included) in South Africa with manganese ore from South Africa", 0.92, 0.82),
     ("HPMSM produced via EMM Dissolution in China with manganese ore from China", 1.00, 0.19),
     ("HPMSM produced via direct ore processing in Australia with manganese ore from Australia", 1.10, 0.81),
     ("HPMSM produced via direct ore processing in China with manganese ore from Australia", 1.14, 0.83),
     ("HPMSM produced via direct ore processing in China with manganese ore from India", 1.15, 0.83),
     ("HPMSM produced via direct ore processing in China with manganese ore from Gabon", 1.21, 0.83),
     ("HPMSM produced via direct ore processing in China with manganese ore from Brazil", 1.22, 0.82),
     ("HPMSM produced via direct ore processing in Australia with manganese ore from Gabon", 1.28, 0.82),
     ("HPMSM produced via direct ore processing in China with manganese ore from South Africa", 1.28, 0.84)]),
   ("CAM Lithium",
    [("Lithium hydroxide monohydrate produced via evaporation and processing brine of salar brine in Chile", 4.19, 1.22),
     ("Lithium hydroxide monohydrate produced via processing in Canada of spodumene concentrate from Canada", 5.25, 3.34),
     ("Lithium hydroxide monohydrate from global average", 9.02, 1.93),
     ("Lithium hydroxide monohydrate produced via processing in US of spodumene ore from US", 9.18, 1.73),
     ("Lithium hydroxide - Freyr Custom Route", 9.88, 0),
     ("Lithium hydroxide monohydrate produced via processing in China of spodumene concentrate from Australia", 10.04, 1.91),
     ("Lithium hydroxide monohydrate produced via processing in the US of sedimentary clays from US", 12.59, 1.43)]),
   ("pCam Cobalt",
    [("Cobalt sulfate heptahydrate from global average", 1.80, 2.35),
     ("Cobalt sulfate heptahydrate produced in China via HPAL from MHP with laterite ore from Indonesia", 2.43, 2.35),
     ("Cobalt sulfate heptahydrate produced in Indonesia via HPAL from MHP with laterite ore from Indonesia", 2.84, 2.35)])]

-- -------------------------
-- MATERIAL TABLES  (model.py lines 180-296)
-- -------------------------

/-- One `materials_data` entry.  `materials` holds
`name ↦ {"qty": q, "unit": u}` as `(name, q, u)` in dict insertion order;
`silicon` holds the `"silicon_co2_water_per_kwh"` table
`pct ↦ {"co2": c, "water": w}` as `(pct, c, w)`.  The LFP entry has no
silicon key in the source dict; it is recorded as the empty table, on which
every lookup fails exactly as the missing dict key would. -/
structure CellData where
  materials : List (String × ℚ × String)
  base_co2 : ℚ
  base_water : ℚ
  silicon : List (ℚ × ℚ × ℚ)
deriving DecidableEq

def nmc1Data : CellData :=
  { materials :=
      [("NCM", 0.5, "kg"),
       ("SP-01", 0.5, "kg"),
       ("PVDF-1", 0.5, "kg"),
       ("NMP", 0.5, "kg"),
       ("Boehmite", 0.5, "kg"),
       ("PVDF-2", 0.5, "kg"),
       ("Graphite", 0.5, "kg"),
       ("SWCNT", 0.5, "kg"),
       ("PAA", 0.5, "kg"),
       ("Anoder Binder", 0.5, "kg"),
       ("Thickener (CMC)", 0.5, "kg"),
       ("Al Foil (Cell 1)", 0.5, "kg"),
       ("Cu Foil (Cell 1)", 0.5, "kg"),
       ("LT Electrolyte", 0.5, "kg"),
       ("Separator", 3.5, "m2"),
       ("Tape", 1.0, "m2"),
       ("Aluminium Can (Cell 1)", 1.0, "Units"),
       ("Positive Top-cap (Cell 1)", 1.0, "Units"),
       ("Negative Top-cap (Cell 1)", 1.0, "Units"),
       ("Blue Film (Cell 1)", 1.0, "m2"),
       ("Positive Vent Cover (Cell 1)", 1.0, "Units"),
       ("Negative Vent Cover (Cell 1)", 1.0, "Units"),
       ("Rubber Nail", 1.0, "Units"),
       ("Al Nail (Seal Pin)", 1.0, "Units"),
       ("Insulation Bracket (Cell 1)", 1.0, "Units"),
       ("Mylar Stack Wrap (Cell 1)", 1.0, "Units"),
       ("Mylar Reinforcing Strip (Cell 1)", 1.0, "Units"),
       ("MWCNT", 0.5, "kg"),
       ("Plasticiser", 0.5, "kg"),
       ("Mylar Tape", 0.5, "m2"),
       ("Welding Printing Adhesive", 0.5, "m2"),
       ("QR Code Tape", 0.5, "m2"),
       ("Battery Core Forming Nail", 2.0, "Units")],
    base_co2 := 68.85,
    base_water := 24.14,
    silicon := [(3, 2, 5), (5, 3, 6), (10, 4, 7), (15, 5, 8), (20, 6, 9)] }

def nmc2Data : CellData :=
  { materials :=
      [("NCM - CAM powder", 0.2, "kg"),
       ("SP-01 - carbon black cam", 0.2, "kg"),
       ("PVDF-1 Cathode", 0.2, "kg"),
       ("NMP - solvent", 0.2, "kg"),
       ("Boehmite", 0.2, "kg"),
       ("PVDF-2", 0.2, "kg"),
       ("Graphite - 100% synthetic", 0.2, "kg"),
       ("SWCNT Single wall Carbon Nano tube", 0.2, "kg"),
       ("MWCNT Multiwall carbon nano tube", 0.2, "kg"),
       ("PAA - anode binder", 0.2, "kg"),
       ("Anoder Binder - SBR", 0.2, "kg"),
       ("Thickener (CMC)", 0.2, "kg"),
       ("Al Foil (Cell 2)", 0.2, "kg"),
       ("Cu Foil (Cell 2)", 0.2, "kg"),
       ("LT Electrolyte", 0.2, "kg"),
       ("Separator", 5.2, "m2"),
       ("Tape", 0.4, "m2"),
       ("Aluminium Can (Cell 2)", 1.0, "Units"),
       ("Positive Top-cap (Cell 2)", 1.0, "Units"),
       ("Negative Top-cap (Cell 2)", 1.0, "Units"),
       ("Blue Film (Cell 2)", 0.2, "m2"),
       ("Positive Vent Cover (Cell 2)", 1.0, "Units"),
       ("Negative Vent Cover (Cell 2)", 1.0, "Units"),
       ("Rubber Nail", 1.0, "Units"),
       ("Al Nail (Seal Pin)", 1.0, "Units"),
       ("Insulation Bracket (Cell 2)", 1.0, "Units"),
       ("Mylar Stack Wrap (Cell 2)", 1.0, "Units"),
       ("Mylar Reinforcing Strip (Cell 2)", 1.0, "Units"),
       ("Mylar Tape", 0.2, "m2"),
       ("Welding Printing Adhesive", 0.2, "m2"),
       ("QR Code Tape", 0.2, "m2"),
       ("Terminal Tape", 0.2, "m2"),
       ("PET Film", 0.2, "m2")],
    base_co2 := 68.85,
    base_water := 24.14,
    silicon := [(3, 2, 3), (5, 3, 4), (10, 4, 5), (15, 5, 6), (20, 6, 7)] }

def lfpData : CellData :=
  { materials :=
      [("Polypropylene", 0.3, "kg"),
       ("Aluminium Foil - Cathode", 0.3, "kg"),
       ("NMP Solvent - Cathode", 0.3, "kg"),
       ("SBR Binder - Cathode", 0.3, "kg"),
       ("Polyethylene Terephthalate", 0.3, "kg"),
       ("Anode Syn Graphite AAM", 0.3, "kg"),
       ("PVDF Binder - Anode", 0.3, "kg"),
       ("Cathode Active Material CAM + pCAM", 0.3, "kg"),
       ("Li", 0.3, "kg"),
       ("Can", 0.3, "kg"),
       ("NMP Solvent - Anode", 0.3, "kg"),
       ("CMC Binder - Anode", 0.3, "kg"),
       ("Carbon Black - Anode", 0.3, "kg"),
       ("SBR Binder - Anode", 0.3, "kg"),
       ("PVDF Binder - Cathode", 0.3, "kg"),
       ("Electrolyte", 0.3, "kg"),
       ("Copper Foil - Anode", 0.3, "kg"),
       ("Polyethylene - Separator", 0.3, "kg"),
       ("CMC Binder - Cathode", 0.3, "kg"),
       ("Carbon Black - Cathode", 0.3, "kg")],
    base_co2 := 68.85 + 8,
    base_water := 24.14 + 9,
    silicon := [] }

def materials_data : List (String × CellData) :=
  [("NMC Cell 1", nmc1Data), ("NMC Cell 2", nmc2Data), ("LFP", lfpData)]

-- -------------------------
-- HELPER FUNCTIONS  (model.py lines 302-428)
-- Note: model.py defines `calculate_material_sourcing_impact` twice
-- (lines 302-327 and 329-354); the second definition shadows the first and is
-- the one `calculate_site_metrics` calls, so it is the one embedded here.
-- -------------------------

/-- The inner loop of `calculate_material_sourcing_impact`
(model.py lines 342-347): starting from
`category_co2 = category_water = total_percentage = 0`, each source entry
with `percentage > 0` whose name is in the reference `table` of the category
contributes `(co2 * percentage/100, water * percentage/100, percentage)`;
every other entry is skipped.  Rational addition is commutative and
associative, so accumulating by structural recursion yields the same value
as the Python left-to-right loop. -/
def categoryImpact (table : List (String × ℚ × ℚ)) :
    List (String × ℚ) → ℚ × ℚ × ℚ
  | [] => (0, 0, 0)
  | (source_name, percentage) :: rest =>
      let acc := categoryImpact table rest
      match alookup table source_name with
      | none => acc
      | some d =>
          if percentage > 0 then
            (acc.1 + d.1 * (percentage / 100),
             acc.2.1 + d.2 * (percentage / 100),
             acc.2.2 + percentage)
          else acc

/-- Per-category contribution (model.py lines 338-352): the accumulated
`(category_co2, category_water)` if `total_percentage == 100`, else zero. -/
def categoryContribution (table : List (String × ℚ × ℚ))
    (sources : List (String × ℚ)) : ℚ × ℚ :=
  let acc := categoryImpact table sources
  if acc.2.2 = 100 then (acc.1, acc.2.1) else (0, 0)

/-- Embedding of `calculate_material_sourcing_impact` (model.py lines 329-354, the
definition in scope): sum the per-category contributions over the categories
of the mix, skipping categories absent from `MATERIAL_SOURCES`. -/
def calculate_material_sourcing_impact :
    List (String × List (String × ℚ)) → ℚ × ℚ
  | [] => (0, 0)
  | (material_category, sources) :: rest =>
      let acc := calculate_material_sourcing_impact rest
      match alookup MATERIAL_SOURCES material_category with
      | none => acc
      | some table =>
          let c := categoryContribution table sources
          (acc.1 + c.1, acc.2 + c.2)

/-- The key under which a BOM entry is accumulated
(model.py line 388): `f"{material_name} ({unit})"`. -/
def materialKey (material_name unit : String) : String :=
  material_name ++ " (" ++ unit ++ ")"

/-- Embedding of `cells_of_this_type` as the per-type loop of `calculate_site_metrics`
produces it (model.py lines 375-381): `total_cells * (mix_percentage / 100)`,
except that a type skipped by either `continue` guard
(`mix_percentage <= 0`, or `cells_of_this_type <= 0`) contributes `0`. -/
def cells_of_type (total_cells mix_percentage : ℚ) : ℚ :=
  if mix_percentage ≤ 0 then 0
  else if total_cells * (mix_percentage / 100) ≤ 0 then 0
  else total_cells * (mix_percentage / 100)

/-- The return record of `calculate_site_metrics` (model.py lines 414-422). -/
structure SiteResults where
  energy_gwh : ℚ
  total_cells : ℚ
  total_co2 : ℚ
  energy_co2 : ℚ
  material_co2 : ℚ
  total_water : ℚ
  materials : List (String × ℚ)
deriving DecidableEq

/-- One iteration of the `for cell_type, mix_percentage in cell_mix.items()`
loop of `calculate_site_metrics` (model.py lines 375-409), acting on the
accumulator `(site_materials, total_material_co2, total_material_water)`.
`none` is an uncaught `KeyError` (unknown cell type, or a silicon percentage
outside the silicon table of the type). -/
def loopStep (total_cells energy_gwh : ℚ)
    (silicon_pcts : List (String × ℚ))
    (material_sourcing : List (String × List (String × List (String × ℚ))))
    (acc : List (String × ℚ) × ℚ × ℚ) (entry : String × ℚ) :
    Option (List (String × ℚ) × ℚ × ℚ) :=
  let cell_type := entry.1
  let mix_percentage := entry.2
  if mix_percentage ≤ 0 then some acc
  else
    let cells_of_this_type := total_cells * (mix_percentage / 100)
    if cells_of_this_type ≤ 0 then some acc
    else
      match alookup materials_data cell_type with
      | none => none
      | some cell_data =>
          let site_materials := cell_data.materials.foldl
            (fun m e => addMat m (materialKey e.1 e.2.2) (e.2.1 * cells_of_this_type))
            acc.1
          let co2_per_kwh := cell_data.base_co2
          let water_per_kwh := cell_data.base_water
          let adjusted : Option (ℚ × ℚ) :=
            if cell_type = "LFP" then some (co2_per_kwh, water_per_kwh)
            else
              let silicon_pct := (alookup silicon_pcts cell_type).getD 3
              match alookup cell_data.silicon silicon_pct with
              | none => none
              | some d =>
                  let c1 := co2_per_kwh + d.1
                  let w1 := water_per_kwh + d.2
                  match alookup material_sourcing cell_type with
                  | none => some (c1, w1)
                  | some smix =>
                      let s := calculate_material_sourcing_impact smix
                      some (c1 + s.1, w1 + s.2)
          match adjusted with
          | none => none
          | some cw =>
              let energy_kwh_for_this_cell_type :=
                energy_gwh * (mix_percentage / 100) * 1000000
              some (site_materials,
                    acc.2.1 + energy_kwh_for_this_cell_type * cw.1 / 1000,
                    acc.2.2 + energy_kwh_for_this_cell_type * cw.2 / 1000)

/-- Embedding of `calculate_site_metrics` (model.py lines 357-422): `pw` abstracts the
float power `x ** b` of the energy-mix lambdas; `none` is an uncaught
exception.  As in the source, the `ENERGY_MIXES[energy_mix_name]` lookup is
evaluated only when `energy_gwh > 0`. -/
def calculate_site_metrics (lines power_pct : ℚ)
    (cell_mix : List (String × ℚ)) (silicon_pcts : List (String × ℚ))
    (material_sourcing : List (String × List (String × List (String × ℚ))))
    (country : String) (energy_mix_name : String)
    (pw : ℚ → ℚ → ℚ) : Option SiteResults :=
  let max_gwh_per_line : ℚ := if country = "UK" then 50 else 70
  let max_cells_per_line : ℚ := 300
  let energy_gwh := lines * max_gwh_per_line * (power_pct / 100)
  let total_cells := lines * max_cells_per_line * (power_pct / 100)
  match foldOption (loopStep total_cells energy_gwh silicon_pcts material_sourcing)
      ([], 0, 0) cell_mix with
  | none => none
  | some acc =>
      let energy_co2_opt : Option ℚ :=
        if energy_gwh > 0 then
          (alookup ENERGY_MIXES energy_mix_name).map
            (fun ab => applyEnergyMix pw ab.1 ab.2 energy_gwh)
        else some 0
      match energy_co2_opt with
      | none => none
      | some energy_co2 =>
          some { energy_gwh := energy_gwh,
                 total_cells := total_cells,
                 total_co2 := energy_co2 + acc.2.1,
                 energy_co2 := energy_co2,
                 material_co2 := acc.2.1,
                 total_water := acc.2.2,
                 materials := acc.1 }

/-- The all-zero site result assigned before the guard
(model.py lines 524-525). -/
def emptyResults : SiteResults :=
  { energy_gwh := 0, total_cells := 0, total_co2 := 0, energy_co2 := 0,
    material_co2 := 0, total_water := 0, materials := [] }

/-- The per-site orchestration of one year (model.py lines 524-533): the
results of the site start as the all-zero record and `calculate_site_metrics` is
called only when `lines > 0` and the three mix percentages sum to 100. -/
def site_year_results (lines power : ℚ)
    (mix_nmc1 mix_nmc2 mix_lfp : ℚ) (silicon_pcts : List (String × ℚ))
    (material_sourcing : List (String × List (String × List (String × ℚ))))
    (country : String) (energy_mix_name : String)
    (pw : ℚ → ℚ → ℚ) : Option SiteResults :=
  if lines > 0 ∧ mix_nmc1 + mix_nmc2 + mix_lfp = 100 then
    calculate_site_metrics lines power
      [("NMC Cell 1", mix_nmc1), ("NMC Cell 2", mix_nmc2), ("LFP", mix_lfp)]
      silicon_pcts material_sourcing country energy_mix_name pw
  else some emptyResults

-- -------------------------
-- General lemmas about the model
-- -------------------------

/-- On success, `calculate_site_metrics` returns the capacity formula values
in the `energy_gwh` and `total_cells` fields, and a non-positive energy
output forces `energy_co2 = 0`. -/
theorem csm_some_shape (lines power_pct : ℚ)
    (cell_mix silicon_pcts : List (String × ℚ))
    (ms : List (String × List (String × List (String × ℚ))))
    (country emix : String) (pw : ℚ → ℚ → ℚ) (r : SiteResults)
    (h : calculate_site_metrics lines power_pct cell_mix silicon_pcts ms
      country emix pw = some r) :
    r.energy_gwh = lines * (if country = "UK" then (50 : ℚ) else 70) * (power_pct / 100) ∧
    r.total_cells = lines * 300 * (power_pct / 100) ∧
    (¬ r.energy_gwh > 0 → r.energy_co2 = 0) := by
  simp only [calculate_site_metrics] at h
  split at h
  · exact absurd h (by simp)
  · split at h
    · exact absurd h (by simp)
    · cases h
      refine ⟨rfl, rfl, fun hng => ?_⟩
      rename_i eco heq
      have hng2 : ¬ lines * (if country = "UK" then (50 : ℚ) else 70) * (power_pct / 100) > 0 := hng
      rw [if_neg hng2] at heq
      exact (Option.some.inj heq).symm

/-- Each `loopStep` iteration with `total_cells = 0` leaves the accumulator
unchanged: the `cells_of_this_type <= 0` guard skips every cell type. -/
theorem loopStep_zero_cells (eg : ℚ) (sp : List (String × ℚ))
    (ms : List (String × List (String × List (String × ℚ))))
    (acc : List (String × ℚ) × ℚ × ℚ) (e : String × ℚ) :
    loopStep 0 eg sp ms acc e = some acc := by
  simp [loopStep]

/-- The whole cell-type loop with `total_cells = 0` leaves the accumulator
unchanged and raises nothing. -/
theorem foldOption_loopStep_zero (eg : ℚ) (sp : List (String × ℚ))
    (ms : List (String × List (String × List (String × ℚ))))
    (mix : List (String × ℚ)) (acc : List (String × ℚ) × ℚ × ℚ) :
    foldOption (loopStep 0 eg sp ms) acc mix = some acc := by
  induction mix with
  | nil => rfl
  | cons e rest ih => simp [foldOption, loopStep_zero_cells, ih]

/-- The production scenario used by several witnesses below: UK site, 2
lines, 100% power, 100% LFP, energy mix "100% Grid", with the abstract
float power instantiated by the zero function. -/
def lfpScenarioResults : SiteResults :=
  { energy_gwh := 100, total_cells := 600, total_co2 := 7685000,
    energy_co2 := 0, material_co2 := 7685000, total_water := 3314000,
    materials :=
      [("Polypropylene (kg)", 180),
       ("Aluminium Foil - Cathode (kg)", 180),
       ("NMP Solvent - Cathode (kg)", 180),
       ("SBR Binder - Cathode (kg)", 180),
       ("Polyethylene Terephthalate (kg)", 180),
       ("Anode Syn Graphite AAM (kg)", 180),
       ("PVDF Binder - Anode (kg)", 180),
       ("Cathode Active Material CAM + pCAM (kg)", 180),
       ("Li (kg)", 180),
       ("Can (kg)", 180),
       ("NMP Solvent - Anode (kg)", 180),
       ("CMC Binder - Anode (kg)", 180),
       ("Carbon Black - Anode (kg)", 180),
       ("SBR Binder - Anode (kg)", 180),
       ("PVDF Binder - Cathode (kg)", 180),
       ("Electrolyte (kg)", 180),
       ("Copper Foil - Anode (kg)", 180),
       ("Polyethylene - Separator (kg)", 180),
       ("CMC Binder - Cathode (kg)", 180),
       ("Carbon Black - Cathode (kg)", 180)] }

theorem lfpScenario_eval :
    calculate_site_metrics 2 100 [(("LFP"), 100)] [] []
      ("UK") ("100% Grid") (fun _ _ => 0) = some lfpScenarioResults := by
  norm_num +decide [calculate_site_metrics, loopStep, foldOption, alookup, addMat,
    materialKey, materials_data, lfpData, ENERGY_MIXES, applyEnergyMix,
    lfpScenarioResults]

-- -------------------------
-- Claim theorems
-- -------------------------

/-- C1: every successful call to `calculate_site_metrics` returns
`energy_gwh = lines * max_energy_per_line * (power_pct / 100)` and
`total_cells = lines * max_cells_per_line * (power_pct / 100)` exactly,
with `max_energy_per_line = 50` for the UK and `70` for India and
`max_cells_per_line = 300` for both sites. -/
theorem c1_capacity_formula (lines power_pct : ℚ)
    (cell_mix silicon_pcts : List (String × ℚ))
    (ms : List (String × List (String × List (String × ℚ))))
    (country emix : String) (pw : ℚ → ℚ → ℚ) (r : SiteResults)
    (h : calculate_site_metrics lines power_pct cell_mix silicon_pcts ms
      country emix pw = some r) :
    (country = "UK" →
      r.energy_gwh = lines * 50 * (power_pct / 100) ∧
      r.total_cells = lines * 300 * (power_pct / 100)) ∧
    (country = "India" →
      r.energy_gwh = lines * 70 * (power_pct / 100) ∧
      r.total_cells = lines * 300 * (power_pct / 100)) := by
  obtain ⟨he, hc, -⟩ := csm_some_shape lines power_pct cell_mix silicon_pcts ms
    country emix pw r h
  constructor
  · intro hu
    subst hu
    rw [he, hc]
    norm_num +decide
  · intro hi
    subst hi
    rw [he, hc]
    norm_num +decide

/-- C1 witness: the UK LFP scenario (2 lines, 100% power) instantiates the
capacity formula. -/
theorem c1_capacity_formula_witness :
    (("UK" : String) = "UK" →
      lfpScenarioResults.energy_gwh = 2 * 50 * ((100 : ℚ) / 100) ∧
      lfpScenarioResults.total_cells = 2 * 300 * ((100 : ℚ) / 100)) ∧
    (("UK" : String) = "India" →
      lfpScenarioResults.energy_gwh = 2 * 70 * ((100 : ℚ) / 100) ∧
      lfpScenarioResults.total_cells = 2 * 300 * ((100 : ℚ) / 100)) :=
  c1_capacity_formula 2 100 [(("LFP"), 100)] [] [] ("UK") ("100% Grid")
    (fun _ _ => 0) lfpScenarioResults lfpScenario_eval

/-- C6: every energy-mix formula of the reference table evaluates to `0` at
`x = 0` (the `if x > 0` guard, not the power law, decides that point), and
any successful `calculate_site_metrics` call with non-positive energy output
reports `energy_co2 = 0`. -/
theorem c6_energy_mix_zero_at_zero :
    (∀ (pw : ℚ → ℚ → ℚ) (e : String × ℚ × ℚ), e ∈ ENERGY_MIXES →
      applyEnergyMix pw e.2.1 e.2.2 0 = 0) ∧
    (∀ (lines power_pct : ℚ) (cell_mix silicon_pcts : List (String × ℚ))
       (ms : List (String × List (String × List (String × ℚ))))
       (country emix : String) (pw : ℚ → ℚ → ℚ) (r : SiteResults),
      calculate_site_metrics lines power_pct cell_mix silicon_pcts ms
        country emix pw = some r →
      ¬ r.energy_gwh > 0 → r.energy_co2 = 0) := by
  constructor
  · intro pw e _
    simp [applyEnergyMix]
  · intro lines power_pct cell_mix silicon_pcts ms country emix pw r h hng
    exact (csm_some_shape lines power_pct cell_mix silicon_pcts ms
      country emix pw r h).2.2 hng

/-- C6 witness: the "100% Grid" formula at `x = 0` returns `0` for a sample
instantiation of the abstract float power. -/
theorem c6_energy_mix_zero_at_zero_witness :
    applyEnergyMix (fun _ _ => 1) 2777.40274 0.288551 0 = 0 :=
  c6_energy_mix_zero_at_zero.1 (fun _ _ => 1)
    (("100% Grid"), 2777.40274, 0.288551) (by simp [ENERGY_MIXES])

/-- C8: the total cost is
`uk_energy_gwh * 1e6 * UK_PRICE_PER_KWH + india_energy_gwh * 1e6 *
INDIA_PRICE_PER_KWH`, where the UK price is the fixed constant `0.258` GBP
and the India price is the fixed INR price `7.38` converted by the single
fixed exchange-rate multiplication `* (1/105)`; the rational arithmetic is
exact, so no further rounding step occurs. -/
theorem c8_cost_formula :
    (∀ uk_energy_gwh india_energy_gwh : ℚ,
      calculate_costs uk_energy_gwh india_energy_gwh =
        uk_energy_gwh * 1000000 * UK_PRICE_PER_KWH
          + india_energy_gwh * 1000000 * INDIA_PRICE_PER_KWH) ∧
    UK_PRICE_PER_KWH = 0.258 ∧
    INDIA_PRICE_PER_KWH = 7.38 * (1 / 105) :=
  ⟨fun _ _ => rfl, rfl, rfl⟩

/-- C10: with `lines = 0` or `power_pct = 0` the model returns the all-zero
record (in particular `energy_co2 = 0`) whatever the energy-mix name, because
the `ENERGY_MIXES[energy_mix_name]` lookup is guarded by `energy_gwh > 0`;
an unknown name together with positive energy output reaches the lookup and
the call fails. -/
theorem c10_lazy_energy_mix_lookup :
    (∀ (lines power_pct : ℚ) (cell_mix silicon_pcts : List (String × ℚ))
       (ms : List (String × List (String × List (String × ℚ))))
       (country emix : String) (pw : ℚ → ℚ → ℚ),
      lines = 0 ∨ power_pct = 0 →
      calculate_site_metrics lines power_pct cell_mix silicon_pcts ms
        country emix pw = some emptyResults) ∧
    (∀ (lines power_pct : ℚ) (cell_mix silicon_pcts : List (String × ℚ))
       (ms : List (String × List (String × List (String × ℚ))))
       (country emix : String) (pw : ℚ → ℚ → ℚ),
      alookup ENERGY_MIXES emix = none →
      lines * (if country = "UK" then (50 : ℚ) else 70) * (power_pct / 100) > 0 →
      calculate_site_metrics lines power_pct cell_mix silicon_pcts ms
        country emix pw = none) := by
  constructor
  · intro lines power_pct cell_mix silicon_pcts ms country emix pw h
    rcases h with h | h <;> subst h <;>
      simp [calculate_site_metrics, foldOption_loopStep_zero, emptyResults]
  · intro lines power_pct cell_mix silicon_pcts ms country emix pw hnone hpos
    simp only [calculate_site_metrics]
    rcases hf : foldOption (loopStep (lines * 300 * (power_pct / 100))
        (lines * (if country = "UK" then (50 : ℚ) else 70) * (power_pct / 100))
        silicon_pcts ms) ([], 0, 0) cell_mix with _ | acc
    · simp only [hf]
    · simp only [hf, if_pos hpos, hnone]
      rfl

/-- C10 witness: zero lines with an unknown energy-mix name still returns the
all-zero record. -/
theorem c10_lazy_energy_mix_lookup_witness :
    calculate_site_metrics 0 100 [(("LFP"), 100)] [] [] ("UK")
      ("No Such Mix") (fun _ _ => 1) = some emptyResults :=
  c10_lazy_energy_mix_lookup.1 0 100 [(("LFP"), 100)] [] [] ("UK")
    ("No Such Mix") (fun _ _ => 1) (Or.inl rfl)

/-- C2: a site-year with `lines > 0` whose three cell-mix percentages do not
sum to 100 never reaches `calculate_site_metrics`: the year keeps the all-zero
record for that site (zero energy, cells, CO2 components, water, materials)
and no exception can arise; its cost term is likewise zero, so the year cost
reduces to the term of the other site alone. -/
theorem c2_invalid_mix_contributes_zero (lines power n1 n2 nl : ℚ)
    (silicon_pcts : List (String × ℚ))
    (ms : List (String × List (String × List (String × ℚ))))
    (country emix : String) (pw : ℚ → ℚ → ℚ)
    (_hl : lines > 0) (hm : n1 + n2 + nl ≠ 100) :
    site_year_results lines power n1 n2 nl silicon_pcts ms country emix pw =
      some emptyResults ∧
    (∀ e : ℚ, calculate_costs emptyResults.energy_gwh e =
      e * 1000000 * INDIA_PRICE_PER_KWH) ∧
    (∀ e : ℚ, calculate_costs e emptyResults.energy_gwh =
      e * 1000000 * UK_PRICE_PER_KWH) := by
  refine ⟨?_, ?_, ?_⟩
  · rw [site_year_results, if_neg]
    intro hc
    exact hm hc.2
  · intro e
    show (0 : ℚ) * 1000000 * UK_PRICE_PER_KWH + e * 1000000 * INDIA_PRICE_PER_KWH = _
    ring
  · intro e
    show e * 1000000 * UK_PRICE_PER_KWH + (0 : ℚ) * 1000000 * INDIA_PRICE_PER_KWH = _
    ring

/-- C2 witness: end-to-end scenario 2 of the spec, mix `60/30/5` on an active
site (1 line). -/
theorem c2_invalid_mix_contributes_zero_witness :
    site_year_results 1 50 60 30 5 [] [] ("UK") ("100% Grid") (fun _ _ => 0) =
      some emptyResults ∧
    (∀ e : ℚ, calculate_costs emptyResults.energy_gwh e =
      e * 1000000 * INDIA_PRICE_PER_KWH) ∧
    (∀ e : ℚ, calculate_costs e emptyResults.energy_gwh =
      e * 1000000 * UK_PRICE_PER_KWH) :=
  c2_invalid_mix_contributes_zero 1 50 60 30 5 [] [] ("UK") ("100% Grid")
    (fun _ _ => 0) (by norm_num) (by norm_num)

/-- With non-negative total cells and a non-negative percentage, the guarded
per-type cell count is exactly `total_cells * (p / 100)`. -/
theorem cells_of_type_nonneg_eq (total_cells p : ℚ)
    (htc : 0 ≤ total_cells) (hp : 0 ≤ p) :
    cells_of_type total_cells p = total_cells * (p / 100) := by
  rw [cells_of_type]
  rcases lt_or_eq_of_le hp with hp0 | hp0
  · rw [if_neg (not_le.mpr hp0)]
    rcases lt_or_eq_of_le (mul_nonneg htc (by positivity : (0:ℚ) ≤ p / 100)) with hc | hc
    · rw [if_neg (not_le.mpr hc)]
    · rw [← hc, if_pos le_rfl]
  · rw [if_pos (le_of_eq hp0.symm), ← hp0]
    ring

/-- C5: for a cell mix of non-negative percentages summing to exactly 100,
the per-type cell counts of the loop sum back to `total_cells`. -/
theorem c5_cells_partition (total_cells : ℚ) (cell_mix : List (String × ℚ))
    (htc : 0 ≤ total_cells)
    (hnn : ∀ e ∈ cell_mix, 0 ≤ e.2)
    (hsum : (cell_mix.map (fun e => e.2)).sum = 100) :
    (cell_mix.map (fun e => cells_of_type total_cells e.2)).sum = total_cells := by
  have key : ∀ l : List (String × ℚ), (∀ e ∈ l, 0 ≤ e.2) →
      (l.map (fun e => cells_of_type total_cells e.2)).sum =
        total_cells * (l.map (fun e => e.2)).sum / 100 := by
    intro l hl
    induction l with
    | nil => simp
    | cons e rest ih =>
        have he : 0 ≤ e.2 := hl e (List.mem_cons_self e rest)
        have hrest := ih (fun x hx => hl x (List.mem_cons_of_mem e hx))
        simp only [List.map_cons, List.sum_cons, hrest,
          cells_of_type_nonneg_eq total_cells e.2 htc he]
        ring
  rw [key cell_mix hnn, hsum]
  norm_num

/-- C5 witness: a 60/30/10 mix of the three cell types over 600 cells. -/
theorem c5_cells_partition_witness :
    ([(("NMC Cell 1"), (60 : ℚ)), (("NMC Cell 2"), 30), (("LFP"), 10)].map
      (fun e => cells_of_type 600 e.2)).sum = 600 :=
  c5_cells_partition 600 [(("NMC Cell 1"), 60), (("NMC Cell 2"), 30), (("LFP"), 10)]
    (by norm_num)
    (by intro e he; fin_cases he <;> norm_num)
    (by norm_num)

/-- When every source entry has a non-negative weight and a name present in
the reference table of the category, the inner accumulation of
`calculate_material_sourcing_impact` computes the raw weighted sums and the
raw weight total (entries of weight 0 drop out of both sides identically). -/
theorem categoryImpact_eval (table : List (String × ℚ × ℚ))
    (ws : List (String × ℚ))
    (hkn : ∀ e ∈ ws, (alookup table e.1).isSome = true)
    (hnn : ∀ e ∈ ws, 0 ≤ e.2) :
    categoryImpact table ws =
      ((ws.map (fun e => ((alookup table e.1).getD (0, 0)).1 * (e.2 / 100))).sum,
       (ws.map (fun e => ((alookup table e.1).getD (0, 0)).2 * (e.2 / 100))).sum,
       (ws.map (fun e => e.2)).sum) := by
  induction ws with
  | nil => rfl
  | cons e rest ih =>
      have hke : (alookup table e.1).isSome = true :=
        hkn e (List.mem_cons_self e rest)
      have hne : 0 ≤ e.2 := hnn e (List.mem_cons_self e rest)
      have hrest := ih (fun x hx => hkn x (List.mem_cons_of_mem e hx))
        (fun x hx => hnn x (List.mem_cons_of_mem e hx))
      obtain ⟨d, hd⟩ := Option.isSome_iff_exists.mp hke
      rcases e with ⟨s, p⟩
      simp only [categoryImpact, hrest, hd, List.map_cons, List.sum_cons,
        Option.getD_some]
      rcases lt_or_eq_of_le hne with hp | hp
      · rw [if_pos hp]
        refine Prod.ext ?_ (Prod.ext ?_ ?_) <;> dsimp only <;> ring
      · have hp2 : p = 0 := hp.symm
        subst hp2
        rw [if_neg (lt_irrefl 0)]
        simp

/-- C3: for a category of the sourcing mix backed by a table of
`MATERIAL_SOURCES`, when every listed source is a known source of that
category with a non-negative weight, the category adds the weighted average
delta `Σ weight_i/100 * source_delta_i` to the impact if the weights sum to
exactly 100, and adds exactly zero for any other weight total (99 and 101
included). -/
theorem c3_sourcing_category_all_or_nothing (cat : String)
    (table : List (String × ℚ × ℚ)) (ws : List (String × ℚ))
    (rest : List (String × List (String × ℚ)))
    (hcat : alookup MATERIAL_SOURCES cat = some table)
    (hkn : ∀ e ∈ ws, (alookup table e.1).isSome = true)
    (hnn : ∀ e ∈ ws, 0 ≤ e.2) :
    calculate_material_sourcing_impact ((cat, ws) :: rest) =
      (if (ws.map (fun e => e.2)).sum = 100 then
        ((ws.map (fun e => ((alookup table e.1).getD (0, 0)).1 * (e.2 / 100))).sum,
         (ws.map (fun e => ((alookup table e.1).getD (0, 0)).2 * (e.2 / 100))).sum)
       else (0, 0)) + calculate_material_sourcing_impact rest := by
  simp only [calculate_material_sourcing_impact, hcat, categoryContribution,
    categoryImpact_eval table ws hkn hnn]
  by_cases hs : (ws.map (fun e => e.2)).sum = 100
  · rw [if_pos hs]
    refine Prod.ext ?_ ?_ <;>
      simp only [Prod.fst_add, Prod.snd_add] <;> ring
  · rw [if_neg hs]
    refine Prod.ext ?_ ?_ <;>
      simp only [Prod.fst_add, Prod.snd_add] <;> simp

/-- C3 witness: a single fully-weighted cobalt source yields its full delta
on top of an empty remainder. -/
theorem c3_sourcing_category_all_or_nothing_witness :
    calculate_material_sourcing_impact
      [(("pCam Cobalt"), [(("Cobalt sulfate heptahydrate from global average"), 100)])] =
      (if ([(("Cobalt sulfate heptahydrate from global average"), (100 : ℚ))].map
            (fun e => e.2)).sum = 100 then
        (([(("Cobalt sulfate heptahydrate from global average"), (100 : ℚ))].map
            (fun e => ((alookup [(("Cobalt sulfate heptahydrate from global average"), ((1.80 : ℚ), (2.35 : ℚ))),
              (("Cobalt sulfate heptahydrate produced in China via HPAL from MHP with laterite ore from Indonesia"), (2.43, 2.35)),
              (("Cobalt sulfate heptahydrate produced in Indonesia via HPAL from MHP with laterite ore from Indonesia"), (2.84, 2.35))] e.1).getD (0, 0)).1 * (e.2 / 100))).sum,
         ([(("Cobalt sulfate heptahydrate from global average"), (100 : ℚ))].map
            (fun e => ((alookup [(("Cobalt sulfate heptahydrate from global average"), ((1.80 : ℚ), (2.35 : ℚ))),
              (("Cobalt sulfate heptahydrate produced in China via HPAL from MHP with laterite ore from Indonesia"), (2.43, 2.35)),
              (("Cobalt sulfate heptahydrate produced in Indonesia via HPAL from MHP with laterite ore from Indonesia"), (2.84, 2.35))] e.1).getD (0, 0)).2 * (e.2 / 100))).sum)
       else (0, 0)) + calculate_material_sourcing_impact [] :=
  c3_sourcing_category_all_or_nothing ("pCam Cobalt") _ _ []
    (by simp +decide [MATERIAL_SOURCES, alookup])
    (by intro e he; fin_cases he; simp +decide [alookup])
    (by intro e he; fin_cases he; norm_num)

/-- C9: a source entry with non-positive weight, or whose name is not in the
reference table of the category, is excluded from both the weighted delta and the
weight total; hence cobalt weights `{global average: 100, China HPAL: -50}`
contribute the full global-average delta `(1.80, 2.35)`, while
`{global average: 50, unknown: 50}` contribute zero. -/
theorem c9_source_filtering :
    (∀ (table : List (String × ℚ × ℚ)) (s : String) (p : ℚ)
       (ws : List (String × ℚ)),
      p ≤ 0 ∨ alookup table s = none →
      categoryImpact table ((s, p) :: ws) = categoryImpact table ws) ∧
    calculate_material_sourcing_impact
      [(("pCam Cobalt"),
        [(("Cobalt sulfate heptahydrate from global average"), 100),
         (("Cobalt sulfate heptahydrate produced in China via HPAL from MHP with laterite ore from Indonesia"), -50)])] =
      (1.80, 2.35) ∧
    calculate_material_sourcing_impact
      [(("pCam Cobalt"),
        [(("Cobalt sulfate heptahydrate from global average"), 50),
         (("No Such Source"), 50)])] = (0, 0) := by
  refine ⟨?_, ?_, ?_⟩
  · intro table s p ws h
    rcases h with h | h
    · cases hd : alookup table s with
      | none => simp only [categoryImpact, hd]
      | some d => simp [categoryImpact, hd, not_lt.mpr h]
    · simp only [categoryImpact, h]
  · simp +decide [calculate_material_sourcing_impact, categoryContribution,
      categoryImpact, alookup, MATERIAL_SOURCES]
  · simp +decide [calculate_material_sourcing_impact, categoryContribution,
      categoryImpact, alookup, MATERIAL_SOURCES]

/-- C9 witness: a weight of `-1` is skipped by the inner accumulation. -/
theorem c9_source_filtering_witness :
    categoryImpact [] [(("some source"), -1)] = categoryImpact [] [] :=
  c9_source_filtering.1 [] ("some source") (-1) [] (Or.inl (by norm_num))

/-- Prepending the default selection `(ct, 3)` to a silicon dict that does not
mention `ct` changes no `get(cell_type, 3)` result. -/
theorem alookup_getD_default_cons (sp : List (String × ℚ)) (ct ct2 : String)
    (h : alookup sp ct = none) :
    (alookup ((ct, 3) :: sp) ct2).getD 3 = (alookup sp ct2).getD 3 := by
  by_cases hc : ct = ct2
  · subst hc
    rw [alookup, if_pos rfl, h]
    rfl
  · rw [alookup, if_neg hc]

/-- Pointwise-equal loop steps give equal loops. -/
theorem foldOption_congr {α β : Type} (f g : α → β → Option α)
    (hfg : ∀ a b, f a b = g a b) (a : α) (l : List β) :
    foldOption f a l = foldOption g a l := by
  induction l generalizing a with
  | nil => rfl
  | cons b bs ih =>
      rw [foldOption, foldOption, hfg a b]
      cases g a b with
      | none => rfl
      | some a2 => exact ih a2

/-- A `loopStep` with the default selection prepended behaves identically. -/
theorem loopStep_default_silicon (total_cells energy_gwh : ℚ)
    (sp : List (String × ℚ)) (ct : String)
    (ms : List (String × List (String × List (String × ℚ))))
    (h : alookup sp ct = none)
    (acc : List (String × ℚ) × ℚ × ℚ) (e : String × ℚ) :
    loopStep total_cells energy_gwh ((ct, 3) :: sp) ms acc e =
      loopStep total_cells energy_gwh sp ms acc e := by
  rw [loopStep, loopStep, alookup_getD_default_cons sp ct e.1 h]

/-- C4 amended: `calculate_site_metrics` raises no configuration error for a
silicon-bearing cell type with positive mix share and no recorded silicon
selection; it silently applies the default `3`, returning exactly what an
explicit 3% selection returns. -/
theorem c4_missing_silicon_silent_default (lines power_pct : ℚ)
    (cell_mix silicon_pcts : List (String × ℚ))
    (ms : List (String × List (String × List (String × ℚ))))
    (country emix : String) (pw : ℚ → ℚ → ℚ) (ct : String)
    (h : alookup silicon_pcts ct = none) :
    calculate_site_metrics lines power_pct cell_mix ((ct, 3) :: silicon_pcts)
      ms country emix pw =
    calculate_site_metrics lines power_pct cell_mix silicon_pcts
      ms country emix pw := by
  rw [calculate_site_metrics, calculate_site_metrics,
    foldOption_congr _ _
      (loopStep_default_silicon _ _ silicon_pcts ct ms h) ([], 0, 0) cell_mix]

/-- C4 counterexample: calling `calculate_site_metrics` with NMC Cell 1 at
100% of the mix and an empty silicon-selection dict raises nothing and
returns the same record as an explicit 3% selection — a silent default, not
a detectable configuration error. -/
theorem c4_missing_silicon_counterexample :
    calculate_site_metrics 1 100 [(("NMC Cell 1"), 100)] [] [] ("UK")
      ("100% Grid") (fun _ _ => 0) ≠ none ∧
    calculate_site_metrics 1 100 [(("NMC Cell 1"), 100)] [] [] ("UK")
      ("100% Grid") (fun _ _ => 0) =
    calculate_site_metrics 1 100 [(("NMC Cell 1"), 100)] [(("NMC Cell 1"), 3)]
      [] ("UK") ("100% Grid") (fun _ _ => 0) := by
  constructor <;>
    simp +decide [calculate_site_metrics, loopStep, foldOption, alookup,
      addMat, materialKey, materials_data, nmc1Data, ENERGY_MIXES,
      applyEnergyMix]

/-- C4 amended witness: the amended statement instantiated at the
input of the counterexample. -/
theorem c4_missing_silicon_silent_default_witness :
    calculate_site_metrics 1 100 [(("NMC Cell 1"), 100)]
      [(("NMC Cell 1"), 3)] [] ("UK") ("100% Grid") (fun _ _ => 0) =
    calculate_site_metrics 1 100 [(("NMC Cell 1"), 100)] [] [] ("UK")
      ("100% Grid") (fun _ _ => 0) :=
  c4_missing_silicon_silent_default 1 100 [(("NMC Cell 1"), 100)] [] []
    ("UK") ("100% Grid") (fun _ _ => 0) ("NMC Cell 1") rfl

-- -------------------------
-- C7: bill-of-materials aggregation keyed by (material name, unit)
-- -------------------------

/-- The three units occurring in `materials_data`. -/
def UNITS : List String := [("kg"), ("m2"), ("Units")]

theorem eq_of_data_eq {s t : String} (h : s.data = t.data) : s = t := by
  cases s; cases t; exact congrArg String.mk h

/-- On names paired with units drawn from `UNITS`, the key format
`f"{name} ({unit})"` of model.py line 388 is injective: two BOM entries
share a running total exactly when both name and unit agree. -/
theorem materialKey_inj (n1 n2 u1 u2 : String) (h1 : u1 ∈ UNITS) (h2 : u2 ∈ UNITS)
    (h : materialKey n1 u1 = materialKey n2 u2) : n1 = n2 ∧ u1 = u2 := by
  simp only [UNITS, List.mem_cons, List.not_mem_nil, or_false] at h1 h2
  have hd := congrArg String.data h
  simp only [materialKey, String.data_append, List.append_assoc, List.cons_append,
    List.nil_append] at hd
  rcases h1 with h1 | h1 | h1 <;> rcases h2 with h2 | h2 | h2 <;> subst h1 <;> subst h2
  · exact ⟨eq_of_data_eq (List.append_inj' hd rfl).1, rfl⟩
  · exfalso
    have h5 := congrArg (fun l : List Char => l.reverse.take 5) hd
    simp [List.reverse_append] at h5
  · exfalso
    have h5 := congrArg (fun l : List Char => l.reverse.take 5) hd
    simp [List.reverse_append] at h5
  · exfalso
    have h5 := congrArg (fun l : List Char => l.reverse.take 5) hd
    simp [List.reverse_append] at h5
  · exact ⟨eq_of_data_eq (List.append_inj' hd rfl).1, rfl⟩
  · exfalso
    have h5 := congrArg (fun l : List Char => l.reverse.take 5) hd
    simp [List.reverse_append] at h5
  · exfalso
    have h5 := congrArg (fun l : List Char => l.reverse.take 5) hd
    simp [List.reverse_append] at h5
  · exfalso
    have h5 := congrArg (fun l : List Char => l.reverse.take 5) hd
    simp [List.reverse_append] at h5
  · exact ⟨eq_of_data_eq (List.append_inj' hd rfl).1, rfl⟩

/-- Model of `site_materials.get(key, 0)`: the running total stored under a key. -/
def lookupD (m : List (String × ℚ)) (k : String) : ℚ := (alookup m k).getD 0

/-- Total quantity-per-cell carried by the BOM entries of one cell type that
are stored under string key `key`. -/
def keyQty (bom : List (String × ℚ × String)) (key : String) : ℚ :=
  ((bom.filter (fun e => materialKey e.1 e.2.2 = key)).map (fun e => e.2.1)).sum

/-- Total quantity-per-cell of the BOM entries with the given material name
and unit (the pair view of the same data). -/
def qtyOf (bom : List (String × ℚ × String)) (n u : String) : ℚ :=
  ((bom.filter (fun e => e.1 = n ∧ e.2.2 = u)).map (fun e => e.2.1)).sum

theorem lookupD_addMat (m : List (String × ℚ)) (k k2 : String) (q : ℚ) :
    lookupD (addMat m k q) k2 = lookupD m k2 + (if k = k2 then q else 0) := by
  induction m with
  | nil =>
      by_cases hk : k = k2
      · subst hk; simp [lookupD, addMat, alookup]
      · simp [lookupD, addMat, alookup, hk]
  | cons e rest ih =>
      rcases e with ⟨k0, v⟩
      by_cases h0 : k0 = k
      · subst h0
        by_cases hk2 : k0 = k2
        · subst hk2; simp [lookupD, addMat, alookup]
        · simp [lookupD, addMat, alookup, hk2]
      · by_cases hk2 : k0 = k2
        · subst hk2
          have hne : ¬ k = k0 := fun hc => h0 hc.symm
          simp [lookupD, addMat, alookup, h0, hne]
        · simp only [addMat, if_neg h0, lookupD, alookup, if_neg hk2]
          exact ih

theorem lookupD_bomFold (bom : List (String × ℚ × String)) (cells : ℚ)
    (m : List (String × ℚ)) (key : String) :
    lookupD (bom.foldl
      (fun m2 e => addMat m2 (materialKey e.1 e.2.2) (e.2.1 * cells)) m) key =
      lookupD m key + cells * keyQty bom key := by
  induction bom generalizing m with
  | nil => simp [keyQty]
  | cons e rest ih =>
      rw [List.foldl_cons, ih, lookupD_addMat]
      simp only [keyQty, List.filter_cons]
      by_cases hk : materialKey e.1 e.2.2 = key
      · simp [hk]
        ring
      · simp [hk]

/-- Total quantity stored under `key` contributed by one cell type lookup. -/
def keyQtyOf (ct : String) (key : String) : ℚ :=
  match alookup materials_data ct with
  | none => 0
  | some cd => keyQty cd.materials key

theorem loopStep_materials (tc eg : ℚ) (sp : List (String × ℚ))
    (ms : List (String × List (String × List (String × ℚ))))
    (acc acc2 : List (String × ℚ) × ℚ × ℚ) (e : String × ℚ)
    (h : loopStep tc eg sp ms acc e = some acc2) (key : String) :
    lookupD acc2.1 key = lookupD acc.1 key +
      cells_of_type tc e.2 * keyQtyOf e.1 key := by
  rw [loopStep] at h
  by_cases h1 : e.2 ≤ 0
  · rw [if_pos h1] at h
    cases h
    rw [cells_of_type, if_pos h1]
    ring
  · rw [if_neg h1] at h
    by_cases h2 : tc * (e.2 / 100) ≤ 0
    · rw [if_pos h2] at h
      cases h
      rw [cells_of_type, if_neg h1, if_pos h2]
      ring
    · rw [if_neg h2] at h
      cases hcd : alookup materials_data e.1 with
      | none => rw [hcd] at h; exact absurd h (by simp)
      | some cd =>
          rw [hcd] at h
          simp only [] at h
          split at h
          · exact absurd h (by simp)
          · cases h
            rw [keyQtyOf, hcd, cells_of_type, if_neg h1, if_neg h2]
            exact lookupD_bomFold cd.materials (tc * (e.2 / 100)) acc.1 key

theorem foldOption_materials (tc eg : ℚ) (sp : List (String × ℚ))
    (ms : List (String × List (String × List (String × ℚ))))
    (mix : List (String × ℚ)) (acc acc2 : List (String × ℚ) × ℚ × ℚ)
    (h : foldOption (loopStep tc eg sp ms) acc mix = some acc2) (key : String) :
    lookupD acc2.1 key = lookupD acc.1 key +
      (mix.map (fun e => cells_of_type tc e.2 * keyQtyOf e.1 key)).sum := by
  induction mix generalizing acc with
  | nil => cases h; simp
  | cons e rest ih =>
      rw [foldOption] at h
      cases hstep : loopStep tc eg sp ms acc e with
      | none => rw [hstep] at h; exact absurd h (by simp)
      | some acc1 =>
          rw [hstep] at h
          simp only [] at h
          rw [List.map_cons, List.sum_cons, ih acc1 h,
            loopStep_materials tc eg sp ms acc acc1 e hstep key]
          ring

theorem materials_data_units (ct : String) (cd : CellData)
    (h : alookup materials_data ct = some cd) :
    ∀ e ∈ cd.materials, e.2.2 ∈ UNITS := by
  simp only [materials_data, alookup] at h
  split at h
  · cases h; decide
  · split at h
    · cases h; decide
    · split at h
      · cases h; decide
      · exact absurd h (by simp)

theorem keyQty_materialKey (n u : String) (hu : u ∈ UNITS)
    (bom : List (String × ℚ × String)) (hbom : ∀ e ∈ bom, e.2.2 ∈ UNITS) :
    keyQty bom (materialKey n u) = qtyOf bom n u := by
  induction bom with
  | nil => rfl
  | cons e rest ih =>
      have hrest := ih (fun x hx => hbom x (List.mem_cons_of_mem e hx))
      have hue : e.2.2 ∈ UNITS := hbom e (List.mem_cons_self e rest)
      simp only [keyQty, qtyOf, List.filter_cons] at hrest ⊢
      by_cases hk : materialKey e.1 e.2.2 = materialKey n u
      · obtain ⟨hn, hu2⟩ := materialKey_inj e.1 n e.2.2 u hue hu hk
        simp [hk, hn, hu2, hrest]
      · have hne : ¬ (e.1 = n ∧ e.2.2 = u) := by
          rintro ⟨hn, hu2⟩
          exact hk (by rw [hn, hu2])
        simp [hk, hne, hrest]

/-- The aggregate quantity of material `(n, u)` contributed per cell of cell
type `ct` according to `materials_data`. -/
def qtyOfData (ct n u : String) : ℚ :=
  match alookup materials_data ct with
  | none => 0
  | some cd => qtyOf cd.materials n u

theorem keyQtyOf_materialKey (n u : String) (hu : u ∈ UNITS) (ct : String) :
    keyQtyOf ct (materialKey n u) = qtyOfData ct n u := by
  rw [keyQtyOf, qtyOfData]
  cases hcd : alookup materials_data ct with
  | none => rfl
  | some cd =>
      exact keyQty_materialKey n u hu cd.materials (materials_data_units ct cd hcd)

/-- C7: the BOM aggregation of `calculate_site_metrics` accumulates by the
pair (material name, unit): for any name `n` and any unit `u` of the
reference tables, the running total stored under the key of `(n, u)` equals
the sum over cell types of `qty_per_cell * cells_of_type` for exactly the
entries with that name and that unit — the same name under a different unit
stays a distinct entry, and the same `(name, unit)` in the BOMs of several
cell types accumulates into one entry. -/
theorem c7_bom_aggregation (lines power_pct : ℚ)
    (cell_mix silicon_pcts : List (String × ℚ))
    (ms : List (String × List (String × List (String × ℚ))))
    (country emix : String) (pw : ℚ → ℚ → ℚ) (r : SiteResults)
    (h : calculate_site_metrics lines power_pct cell_mix silicon_pcts ms
      country emix pw = some r)
    (n u : String) (hu : u ∈ UNITS) :
    (alookup r.materials (materialKey n u)).getD 0 =
      (cell_mix.map (fun e =>
        cells_of_type (lines * 300 * (power_pct / 100)) e.2 *
          qtyOfData e.1 n u)).sum := by
  simp only [calculate_site_metrics] at h
  split at h
  · exact absurd h (by simp)
  · split at h
    · exact absurd h (by simp)
    · cases h
      rename_i acc hacc ecoopt eco heq
      have hmat := foldOption_materials (lines * 300 * (power_pct / 100))
        (lines * (if country = "UK" then (50 : ℚ) else 70) * (power_pct / 100))
        silicon_pcts ms cell_mix ([], 0, 0) acc hacc (materialKey n u)
      simp only [lookupD, alookup, Option.getD_none, zero_add,
        keyQtyOf_materialKey n u hu] at hmat
      exact hmat

/-- C7 witness: in the UK LFP scenario the entry for ("Li", "kg") carries the
per-type contribution of the LFP bill of materials. -/
theorem c7_bom_aggregation_witness :
    (alookup lfpScenarioResults.materials (materialKey ("Li") ("kg"))).getD 0 =
      ([(("LFP"), (100 : ℚ))].map (fun e =>
        cells_of_type (2 * 300 * ((100 : ℚ) / 100)) e.2 *
          qtyOfData e.1 ("Li") ("kg"))).sum :=
  c7_bom_aggregation 2 100 [(("LFP"), 100)] [] [] ("UK") ("100% Grid")
    (fun _ _ => 0) lfpScenarioResults lfpScenario_eval ("Li") ("kg") (by decide)
